import Mathlib

/-!
Shallow embedding of `src/Native/Unix/System.Native/pal_time.c` (flibitijibibo/corefx,
mono-portability variant): the `SystemNative_UTime` / `SystemNative_UTimes` file-time
setters with their EINTR retry loops and case/drive-insensitive path fallback, and the
monotonic clock queries `SystemNative_GetTimestampResolution`, `SystemNative_GetTimestamp`
and `SystemNative_GetTimebaseInfo`.

Modelling conventions:
* machine unsigned 64-bit arithmetic is `Nat` reduced `% 2^64`; `time_t`, `long` and the
  struct fields are `Int`; the C casts `(uint64_t)x` are explicit `% 2^64` conversions;
* the OS is an explicit environment: each syscall site gets the list of outcomes the OS
  would produce for the successive (retried) attempts, and `errno` is threaded explicitly;
* the compile-time `#if` chain (HAVE_CLOCK_MONOTONIC / HAVE_MACH_ABSOLUTE_TIME /
  gettimeofday fallback) becomes a `ClockConfig` parameter.
-/

namespace PalTime

/-- `enum { SecondsToMicroSeconds = 1000000 }` from pal_time.c. -/
def SecondsToMicroSeconds : Nat := 1000000

/-- `enum { SecondsToNanoSeconds = 1000000000 }` from pal_time.c. -/
def SecondsToNanoSeconds : Nat := 1000000000

/-- Modulus of C `uint64_t` arithmetic (2^64, written as a literal). -/
def UINT64_MOD : Nat := 18446744073709551616

/-- The POSIX errno code ENOENT (file not found), the concrete value on Linux. -/
def ENOENT : Nat := 2

/-- The POSIX errno code EINTR (interrupted syscall), the concrete value on Linux. -/
def EINTR : Nat := 4

/-- Outcome of one attempt of a 0-or-minus-1-returning syscall (`utime`/`utimes`): success
(result 0, errno untouched) or failure (result -1, errno set to `e`). -/
inductive SyscallOutcome where
  | ok
  | err (e : Nat)
deriving Repr, DecidableEq

/-- Modelled from the spec: `CheckInterrupted` lives in `pal_utilities.h`, which is not
part of the sources here; per the spec, syscalls are retried on EINTR-class interruption
(result -1 with errno EINTR) until they return a definitive result. -/
def CheckInterrupted (o : SyscallOutcome) : Bool :=
  match o with
  | .ok => false
  | .err e => e == EINTR

/-- The `while (CheckInterrupted(result = utime(...)));` loop: re-issue the syscall while
it is interrupted; the environment supplies the finite trace of outcomes the OS produces
for the successive attempts. `none` models the loop never observing a definitive result
within the trace (the C loop would still be spinning). -/
def retryLoop : List SyscallOutcome → Option SyscallOutcome
  | [] => none
  | o :: rest => if CheckInterrupted o then retryLoop rest else some o

/-- Effect of a definitive syscall outcome on (result, errno): success returns 0 and
leaves errno alone; failure returns -1 and stores the error code in errno. -/
def applyOutcome (o : SyscallOutcome) (errno : Nat) : Int × Nat :=
  match o with
  | .ok => (0, errno)
  | .err e => (-1, e)

/-- `UTimBuf` of pal_time.h: seconds-resolution access/modification times. -/
structure UTimBuf where
  AcTime : Int
  ModTime : Int
deriving Repr, DecidableEq

/-- `struct utimbuf` of `<utime.h>`. -/
structure Utimbuf where
  actime : Int
  modtime : Int
deriving Repr, DecidableEq

/-- `ConvertUTimBuf` from pal_time.c. -/
def ConvertUTimBuf (pal : UTimBuf) : Utimbuf :=
  { actime := pal.AcTime, modtime := pal.ModTime }

/-- `TimeValPair` of pal_time.h: microsecond-resolution access/modification times. -/
structure TimeValPair where
  AcTimeSec : Int
  AcTimeUSec : Int
  ModTimeSec : Int
  ModTimeUSec : Int
deriving Repr, DecidableEq

/-- `struct timeval` of `<sys/time.h>`. -/
structure Timeval where
  tv_sec : Int
  tv_usec : Int
deriving Repr, DecidableEq

/-- `ConvertTimeValPair` from pal_time.c: fills `struct timeval native[2]`. -/
def ConvertTimeValPair (pal : TimeValPair) : Timeval × Timeval :=
  ({ tv_sec := pal.AcTimeSec, tv_usec := pal.AcTimeUSec },
   { tv_sec := pal.ModTimeSec, tv_usec := pal.ModTimeUSec })

/-- OS environment of one `SystemNative_UTime`/`SystemNative_UTimes` call: the outcome
trace of the initial syscall's attempts, the `IS_PORTABILITY_SET` toggle
(`mono_io_portability_helpers > 0`), the result of `mono_portability_find_file`
(an external collaborator: `none` = NULL, `some f` = a located filename), the effect of
that lookup on errno (it may clobber it arbitrarily), and the outcome trace of the
retried syscall on the located filename. -/
structure UTimeEnv where
  firstCalls : List SyscallOutcome
  portabilitySet : Bool
  locatedFilename : Option String
  findFileErrno : Nat → Nat
  retryCalls : List SyscallOutcome

/-- Result visible to the caller: the int32 return value, the errno value after the call,
and whether the portability fallback lookup was invoked. -/
structure UTimeResult where
  ret : Int
  errno : Nat
  usedFallback : Bool
deriving Repr, DecidableEq

/-- Shared body of `SystemNative_UTime` and `SystemNative_UTimes` (their C bodies are
identical except for the syscall invoked and the times conversion, both absorbed by the
environment): retry the syscall until definitive; on -1 with errno ENOENT under the
portability toggle, save errno, consult the fallback lookup, restore errno and return -1
if it finds nothing, otherwise retry the syscall on the located filename and return that
attempt's result. `none` models an execution that never leaves a retry loop. -/
def setFileTimesCore (env : UTimeEnv) (errno0 : Nat) : Option UTimeResult :=
  match retryLoop env.firstCalls with
  | none => none
  | some o1 =>
    let r1 := (applyOutcome o1 errno0).1
    let e1 := (applyOutcome o1 errno0).2
    if r1 = -1 ∧ e1 = ENOENT ∧ env.portabilitySet = true then
      let saved_errno := e1
      let errnoAfterFind := env.findFileErrno e1
      match env.locatedFilename with
      | none => some { ret := -1, errno := saved_errno, usedFallback := true }
      | some _ =>
        match retryLoop env.retryCalls with
        | none => none
        | some o2 =>
          some { ret := (applyOutcome o2 errnoAfterFind).1,
                 errno := (applyOutcome o2 errnoAfterFind).2,
                 usedFallback := true }
    else
      some { ret := r1, errno := e1, usedFallback := false }

/-- `SystemNative_UTime(const char* path, UTimBuf* times)` from pal_time.c. -/
def SystemNative_UTime (path : String) (times : UTimBuf) (env : UTimeEnv)
    (errno0 : Nat) : Option UTimeResult :=
  let _temp := ConvertUTimBuf times
  let _path := path
  setFileTimesCore env errno0

/-- `SystemNative_UTimes(const char* path, TimeValPair* times)` from pal_time.c. -/
def SystemNative_UTimes (path : String) (times : TimeValPair) (env : UTimeEnv)
    (errno0 : Nat) : Option UTimeResult :=
  let _temp := ConvertTimeValPair times
  let _path := path
  setFileTimesCore env errno0

/-- The three compile-time clock configurations of pal_time.c, in the preprocessor's
preference order: HAVE_CLOCK_MONOTONIC, else HAVE_MACH_ABSOLUTE_TIME, else gettimeofday. -/
inductive ClockConfig where
  | clockMonotonic
  | machAbsoluteTime
  | gettimeofdayClock
deriving Repr, DecidableEq

/-- `struct timespec` of `<time.h>`. -/
structure Timespec where
  tv_sec : Int
  tv_nsec : Int
deriving Repr, DecidableEq

/-- `mach_timebase_info_data_t`: two uint32 fields. -/
structure MachTimebaseInfo where
  numer : Nat
  denom : Nat
deriving Repr, DecidableEq

/-- OS environment of one `SystemNative_GetTimestampResolution` call: whether
`clock_gettime(CLOCK_MONOTONIC, ...)` returns 0, whether `mach_timebase_info` returns
KERN_SUCCESS, and the timebase data it would report. -/
structure ResolutionEnv where
  clockGettimeOk : Bool
  machTimebaseOk : Bool
  mtid : MachTimebaseInfo
deriving Repr, DecidableEq

/-- Result of the resolution query: int32 return value and the uint64 written through the
out-parameter. -/
structure ResolutionResult where
  ret : Int
  resolution : Nat
deriving Repr, DecidableEq

/-- `SystemNative_GetTimestampResolution(uint64_t* resolution)` from pal_time.c.
On HAVE_CLOCK_MONOTONIC it probes `clock_gettime` and reports nanosecond resolution; on
HAVE_MACH_ABSOLUTE_TIME it computes `SecondsToNanoSeconds * (mtid.denom / mtid.numer)`
in uint64 arithmetic (C integer division); otherwise it reports microsecond resolution. -/
def SystemNative_GetTimestampResolution (cfg : ClockConfig) (env : ResolutionEnv) :
    ResolutionResult :=
  match cfg with
  | .clockMonotonic =>
    if env.clockGettimeOk then
      { ret := 1, resolution := SecondsToNanoSeconds }
    else
      { ret := 0, resolution := 0 }
  | .machAbsoluteTime =>
    if env.machTimebaseOk then
      { ret := 1,
        resolution := SecondsToNanoSeconds * (env.mtid.denom / env.mtid.numer) % UINT64_MOD }
    else
      { ret := 0, resolution := 0 }
  | .gettimeofdayClock =>
    { ret := 1, resolution := SecondsToMicroSeconds }

/-- The C cast `(uint64_t)x` of a signed integer: reduce modulo 2^64 (nonnegative
representative). -/
def toUInt64Nat (x : Int) : Nat := (x % (UINT64_MOD : Int)).toNat

/-- `((uint64_t)(ts.tv_sec) * SecondsToNanoSeconds) + (uint64_t)(ts.tv_nsec)` computed in
uint64 arithmetic. -/
def timespecToTicks (ts : Timespec) : Nat :=
  (toUInt64Nat ts.tv_sec * SecondsToNanoSeconds % UINT64_MOD
    + toUInt64Nat ts.tv_nsec) % UINT64_MOD

/-- `((uint64_t)(tv.tv_sec) * SecondsToMicroSeconds) + (uint64_t)(tv.tv_usec)` computed in
uint64 arithmetic. -/
def timevalToTicks (tv : Timeval) : Nat :=
  (toUInt64Nat tv.tv_sec * SecondsToMicroSeconds % UINT64_MOD
    + toUInt64Nat tv.tv_usec) % UINT64_MOD

/-- OS environment of one `SystemNative_GetTimestamp` call: the `clock_gettime`
reading (the C asserts its success and uses the reading unconditionally), the
`mach_absolute_time` tick value (a uint64), and the `gettimeofday` result/reading. -/
structure TimestampEnv where
  ts : Timespec
  machTicks : Nat
  gettimeofdayOk : Bool
  tv : Timeval
deriving Repr, DecidableEq

/-- Result of the timestamp query: int32 return value and the uint64 written through the
out-parameter. -/
structure TimestampResult where
  ret : Int
  timestamp : Nat
deriving Repr, DecidableEq

/-- `SystemNative_GetTimestamp(uint64_t* timestamp)` from pal_time.c. -/
def SystemNative_GetTimestamp (cfg : ClockConfig) (env : TimestampEnv) :
    TimestampResult :=
  match cfg with
  | .clockMonotonic =>
    { ret := 1, timestamp := timespecToTicks env.ts }
  | .machAbsoluteTime =>
    { ret := 1, timestamp := env.machTicks % UINT64_MOD }
  | .gettimeofdayClock =>
    if env.gettimeofdayOk then
      { ret := 1, timestamp := timevalToTicks env.tv }
    else
      { ret := 0, timestamp := 0 }

/-- The compile-time configuration of `SystemNative_GetTimebaseInfo`:
HAVE_MACH_TIMEBASE_INFO present or not. -/
inductive TimebaseConfig where
  | machTimebase
  | unavailable
deriving Repr, DecidableEq

/-- OS environment of one `SystemNative_GetTimebaseInfo` call: whether
`mach_timebase_info` returns KERN_SUCCESS and the data it would report. -/
structure TimebaseEnv where
  ok : Bool
  timebase : MachTimebaseInfo
deriving Repr, DecidableEq

/-- Result of the timebase query: int32 return value and the two uint32 out-parameters. -/
structure TimebaseResult where
  ret : Int
  numer : Nat
  denom : Nat
deriving Repr, DecidableEq

/-- `SystemNative_GetTimebaseInfo(uint32_t* numer, uint32_t* denom)` from pal_time.c:
reports the mach timebase when available and successful, otherwise writes 1/1; always
returns 1. -/
def SystemNative_GetTimebaseInfo (cfg : TimebaseConfig) (env : TimebaseEnv) :
    TimebaseResult :=
  match cfg with
  | .machTimebase =>
    if env.ok then
      { ret := 1, numer := env.timebase.numer, denom := env.timebase.denom }
    else
      { ret := 1, numer := 1, denom := 1 }
  | .unavailable =>
    { ret := 1, numer := 1, denom := 1 }

/-- A `struct timespec` reading that the CLOCK_MONOTONIC primitive can actually produce:
nonnegative seconds, normalized nanosecond field, and a tick value representable in the
uint64 the C computes into. -/
def validTimespec (ts : Timespec) : Prop :=
  0 ≤ ts.tv_sec ∧ 0 ≤ ts.tv_nsec ∧ ts.tv_nsec < (SecondsToNanoSeconds : Int) ∧
    ts.tv_sec * (SecondsToNanoSeconds : Int) + ts.tv_nsec < (UINT64_MOD : Int)

instance (ts : Timespec) : Decidable (validTimespec ts) := by
  unfold validTimespec
  exact inferInstance

/-- Readings of the seconds/nanoseconds clock are ordered by seconds, then nanoseconds. -/
def timespecLe (a b : Timespec) : Prop :=
  a.tv_sec < b.tv_sec ∨ (a.tv_sec = b.tv_sec ∧ a.tv_nsec ≤ b.tv_nsec)

instance (a b : Timespec) : Decidable (timespecLe a b) := by
  unfold timespecLe
  exact inferInstance

/-- A `struct timeval` reading that `gettimeofday` can actually produce: nonnegative
seconds, normalized microsecond field, representable tick value. -/
def validTimeval (tv : Timeval) : Prop :=
  0 ≤ tv.tv_sec ∧ 0 ≤ tv.tv_usec ∧ tv.tv_usec < (SecondsToMicroSeconds : Int) ∧
    tv.tv_sec * (SecondsToMicroSeconds : Int) + tv.tv_usec < (UINT64_MOD : Int)

instance (tv : Timeval) : Decidable (validTimeval tv) := by
  unfold validTimeval
  exact inferInstance

/-- Readings of the seconds/microseconds clock are ordered by seconds, then microseconds. -/
def timevalLe (a b : Timeval) : Prop :=
  a.tv_sec < b.tv_sec ∨ (a.tv_sec = b.tv_sec ∧ a.tv_usec ≤ b.tv_usec)

instance (a b : Timeval) : Decidable (timevalLe a b) := by
  unfold timevalLe
  exact inferInstance

/-! ## Helper lemmas -/

/-- The retry loop only ever hands back a definitive (non-interrupted) outcome. -/
theorem retryLoop_definitive (l : List SyscallOutcome) (o : SyscallOutcome)
    (h : retryLoop l = some o) : CheckInterrupted o = false := by
  induction l with
  | nil => cases h
  | cons a rest ih =>
    unfold retryLoop at h
    by_cases hc : CheckInterrupted a
    · rw [if_pos hc] at h
      exact ih h
    · rw [if_neg hc] at h
      injection h with h'
      subst h'
      simp only [Bool.not_eq_true] at hc
      exact hc

/-- If the initial syscall eventually succeeds, the call returns 0 with errno untouched
and without consulting the fallback. -/
theorem setFileTimesCore_first_ok (env : UTimeEnv) (errno0 : Nat)
    (h : retryLoop env.firstCalls = some SyscallOutcome.ok) :
    setFileTimesCore env errno0 =
      some { ret := 0, errno := errno0, usedFallback := false } := by
  unfold setFileTimesCore
  rw [h]
  simp [applyOutcome]

/-- If the initial syscall fails definitively with an error that is not ENOENT, or the
portability toggle is unset, the error propagates unchanged and no fallback runs. -/
theorem setFileTimesCore_first_err_no_fallback (env : UTimeEnv) (errno0 e : Nat)
    (h : retryLoop env.firstCalls = some (SyscallOutcome.err e))
    (hno : e ≠ ENOENT ∨ env.portabilitySet = false) :
    setFileTimesCore env errno0 =
      some { ret := -1, errno := e, usedFallback := false } := by
  unfold setFileTimesCore
  rw [h]
  rcases hno with hno | hno
  · simp [applyOutcome, hno]
  · simp [applyOutcome, hno]

/-- ENOENT under the portability toggle with no fallback match: -1 with errno restored
to ENOENT. -/
theorem setFileTimesCore_fallback_none (env : UTimeEnv) (errno0 : Nat)
    (h : retryLoop env.firstCalls = some (SyscallOutcome.err ENOENT))
    (hp : env.portabilitySet = true)
    (hl : env.locatedFilename = none) :
    setFileTimesCore env errno0 =
      some { ret := -1, errno := ENOENT, usedFallback := true } := by
  unfold setFileTimesCore
  rw [h]
  simp [applyOutcome, hp, hl]

/-- ENOENT under the portability toggle with a fallback match: the call reports the
retried syscall's definitive outcome. -/
theorem setFileTimesCore_fallback_retry (env : UTimeEnv) (errno0 : Nat) (f : String)
    (o2 : SyscallOutcome)
    (h : retryLoop env.firstCalls = some (SyscallOutcome.err ENOENT))
    (hp : env.portabilitySet = true)
    (hl : env.locatedFilename = some f)
    (h2 : retryLoop env.retryCalls = some o2) :
    setFileTimesCore env errno0 =
      some { ret := (applyOutcome o2 (env.findFileErrno ENOENT)).1,
             errno := (applyOutcome o2 (env.findFileErrno ENOENT)).2,
             usedFallback := true } := by
  unfold setFileTimesCore
  rw [h]
  simp [applyOutcome, hp, hl, h2]

/-- Exhaustive shapes of a terminating `setFileTimesCore` run. -/
theorem setFileTimesCore_shape (env : UTimeEnv) (errno0 : Nat) (r : UTimeResult)
    (h : setFileTimesCore env errno0 = some r) :
    r = { ret := 0, errno := errno0, usedFallback := false } ∨
    (∃ e, CheckInterrupted (SyscallOutcome.err e) = false ∧
       r = { ret := -1, errno := e, usedFallback := false }) ∨
    r = { ret := -1, errno := ENOENT, usedFallback := true } ∨
    r = { ret := 0, errno := env.findFileErrno ENOENT, usedFallback := true } ∨
    (∃ e2, CheckInterrupted (SyscallOutcome.err e2) = false ∧
       r = { ret := -1, errno := e2, usedFallback := true }) := by
  cases ho1 : retryLoop env.firstCalls with
  | none =>
    unfold setFileTimesCore at h
    rw [ho1] at h
    cases h
  | some o1 =>
    have hd1 := retryLoop_definitive _ _ ho1
    cases o1 with
    | ok =>
      rw [setFileTimesCore_first_ok env errno0 ho1] at h
      injection h with h'
      subst h'
      exact Or.inl rfl
    | err e =>
      by_cases he : e = ENOENT
      · subst he
        by_cases hp : env.portabilitySet = true
        · cases hl : env.locatedFilename with
          | none =>
            rw [setFileTimesCore_fallback_none env errno0 ho1 hp hl] at h
            injection h with h'
            subst h'
            exact Or.inr (Or.inr (Or.inl rfl))
          | some f =>
            cases h2 : retryLoop env.retryCalls with
            | none =>
              unfold setFileTimesCore at h
              rw [ho1] at h
              simp [applyOutcome, hp, hl, h2] at h
            | some o2 =>
              have hd2 := retryLoop_definitive _ _ h2
              rw [setFileTimesCore_fallback_retry env errno0 f o2 ho1 hp hl h2] at h
              injection h with h'
              subst h'
              cases o2 with
              | ok =>
                exact Or.inr (Or.inr (Or.inr (Or.inl rfl)))
              | err e2 =>
                exact Or.inr (Or.inr (Or.inr (Or.inr ⟨e2, hd2, rfl⟩)))
        · have hp' : env.portabilitySet = false := by
            cases hpv : env.portabilitySet
            · rfl
            · exact absurd hpv hp
          rw [setFileTimesCore_first_err_no_fallback env errno0 ENOENT ho1 (Or.inr hp')] at h
          injection h with h'
          subst h'
          exact Or.inr (Or.inl ⟨ENOENT, hd1, rfl⟩)
      · rw [setFileTimesCore_first_err_no_fallback env errno0 e ho1 (Or.inl he)] at h
        injection h with h'
        subst h'
        exact Or.inr (Or.inl ⟨e, hd1, rfl⟩)

/-- The two entry points are the shared core applied to the environment. -/
theorem SystemNative_UTime_eq (path : String) (times : UTimBuf) (env : UTimeEnv)
    (errno0 : Nat) :
    SystemNative_UTime path times env errno0 = setFileTimesCore env errno0 := rfl

/-- The two entry points are the shared core applied to the environment (utimes case). -/
theorem SystemNative_UTimes_eq (path : String) (times : TimeValPair) (env : UTimeEnv)
    (errno0 : Nat) :
    SystemNative_UTimes path times env errno0 = setFileTimesCore env errno0 := rfl

/-! ## Claim theorems -/

/-- C1 counterexample: a call whose underlying `utime` syscall succeeds immediately
returns 0, not 1 — the claimed 1-on-success convention does not hold for the
SetFileTimes entry points. -/
theorem utime_success_returns_zero_not_one :
    SystemNative_UTime "f" { AcTime := 0, ModTime := 0 }
        { firstCalls := [SyscallOutcome.ok], portabilitySet := false,
          locatedFilename := none, findFileErrno := id, retryCalls := [] } 0 =
      some { ret := 0, errno := 0, usedFallback := false } ∧ (0 : Int) ≠ 1 := by
  constructor
  · rfl
  · decide

/-- C1 (amended): every terminating call to SystemNative_UTime or SystemNative_UTimes
returns 0 or -1 (never 1), and a call whose initial syscall succeeds returns 0 with
errno untouched. -/
theorem utime_return_convention :
    (∀ (path : String) (times : UTimBuf) (env : UTimeEnv) (errno0 : Nat)
       (r : UTimeResult), SystemNative_UTime path times env errno0 = some r →
       r.ret = 0 ∨ r.ret = -1) ∧
    (∀ (path : String) (times : UTimBuf) (env : UTimeEnv) (errno0 : Nat),
       retryLoop env.firstCalls = some SyscallOutcome.ok →
       SystemNative_UTime path times env errno0 =
         some { ret := 0, errno := errno0, usedFallback := false }) ∧
    (∀ (path : String) (times : TimeValPair) (env : UTimeEnv) (errno0 : Nat)
       (r : UTimeResult), SystemNative_UTimes path times env errno0 = some r →
       r.ret = 0 ∨ r.ret = -1) ∧
    (∀ (path : String) (times : TimeValPair) (env : UTimeEnv) (errno0 : Nat),
       retryLoop env.firstCalls = some SyscallOutcome.ok →
       SystemNative_UTimes path times env errno0 =
         some { ret := 0, errno := errno0, usedFallback := false }) := by
  refine ⟨fun path times env errno0 r h => ?_, fun path times env errno0 h => ?_,
          fun path times env errno0 r h => ?_, fun path times env errno0 h => ?_⟩
  · rcases setFileTimesCore_shape env errno0 r h with h' | ⟨e, _, h'⟩ | h' | h' | ⟨e2, _, h'⟩ <;>
      subst h' <;> simp
  · exact setFileTimesCore_first_ok env errno0 h
  · rcases setFileTimesCore_shape env errno0 r h with h' | ⟨e, _, h'⟩ | h' | h' | ⟨e2, _, h'⟩ <;>
      subst h' <;> simp
  · exact setFileTimesCore_first_ok env errno0 h

/-- C1 witness: instantiation of the amended convention at a failing concrete call. -/
theorem utime_return_convention_witness :
    (-1 : Int) = 0 ∨ (-1 : Int) = -1 := by
  refine utime_return_convention.1 "f" { AcTime := 3, ModTime := 4 }
    { firstCalls := [SyscallOutcome.err 13], portabilitySet := false,
      locatedFilename := none, findFileErrno := id, retryCalls := [] } 0
    { ret := -1, errno := 13, usedFallback := false } ?_
  decide

/-- C3: when the initial syscall definitively fails with ENOENT, the portability toggle
is set, and the fallback lookup finds no match, both entry points return -1 with errno
restored to ENOENT — regardless of what the lookup did to errno. -/
theorem utime_fallback_no_match_restores_enoent :
    (∀ (path : String) (times : UTimBuf) (env : UTimeEnv) (errno0 : Nat),
       retryLoop env.firstCalls = some (SyscallOutcome.err ENOENT) →
       env.portabilitySet = true →
       env.locatedFilename = none →
       SystemNative_UTime path times env errno0 =
         some { ret := -1, errno := ENOENT, usedFallback := true }) ∧
    (∀ (path : String) (times : TimeValPair) (env : UTimeEnv) (errno0 : Nat),
       retryLoop env.firstCalls = some (SyscallOutcome.err ENOENT) →
       env.portabilitySet = true →
       env.locatedFilename = none →
       SystemNative_UTimes path times env errno0 =
         some { ret := -1, errno := ENOENT, usedFallback := true }) :=
  ⟨fun _ _ env errno0 h hp hl => setFileTimesCore_fallback_none env errno0 h hp hl,
   fun _ _ env errno0 h hp hl => setFileTimesCore_fallback_none env errno0 h hp hl⟩

/-- C3 witness: a concrete ENOENT failure with the toggle set, a lookup that clobbers
errno to 99 and finds nothing: the call still reports ENOENT. -/
theorem utime_fallback_no_match_restores_enoent_witness :
    SystemNative_UTime "gone" { AcTime := 1, ModTime := 2 }
        { firstCalls := [SyscallOutcome.err EINTR, SyscallOutcome.err ENOENT],
          portabilitySet := true, locatedFilename := none,
          findFileErrno := fun _ => 99, retryCalls := [] } 0 =
      some { ret := -1, errno := ENOENT, usedFallback := true } := by
  refine utime_fallback_no_match_restores_enoent.1 "gone" { AcTime := 1, ModTime := 2 }
    { firstCalls := [SyscallOutcome.err EINTR, SyscallOutcome.err ENOENT],
      portabilitySet := true, locatedFilename := none,
      findFileErrno := fun _ => 99, retryCalls := [] } 0 ?_ rfl rfl
  decide

/-- C4: the retry loop only yields definitive outcomes, and no terminating call to
SystemNative_UTime or SystemNative_UTimes ever reports failure with errno EINTR. -/
theorem utime_never_surfaces_eintr :
    (∀ (calls : List SyscallOutcome) (o : SyscallOutcome),
       retryLoop calls = some o → CheckInterrupted o = false) ∧
    (∀ (path : String) (times : UTimBuf) (env : UTimeEnv) (errno0 : Nat)
       (r : UTimeResult), SystemNative_UTime path times env errno0 = some r →
       ¬(r.ret = -1 ∧ r.errno = EINTR)) ∧
    (∀ (path : String) (times : TimeValPair) (env : UTimeEnv) (errno0 : Nat)
       (r : UTimeResult), SystemNative_UTimes path times env errno0 = some r →
       ¬(r.ret = -1 ∧ r.errno = EINTR)) := by
  have core : ∀ (env : UTimeEnv) (errno0 : Nat) (r : UTimeResult),
      setFileTimesCore env errno0 = some r → ¬(r.ret = -1 ∧ r.errno = EINTR) := by
    intro env errno0 r h
    rcases setFileTimesCore_shape env errno0 r h with h' | ⟨e, hd, h'⟩ | h' | h' | ⟨e2, hd, h'⟩ <;>
        subst h' <;> rintro ⟨h1, h2⟩
    · simp at h1
    · simp only [CheckInterrupted, beq_eq_false_iff_ne, ne_eq] at hd
      exact hd h2
    · exact absurd h2 (by decide)
    · simp at h1
    · simp only [CheckInterrupted, beq_eq_false_iff_ne, ne_eq] at hd
      exact hd h2
  exact ⟨retryLoop_definitive,
    fun _ _ env errno0 r h => core env errno0 r h,
    fun _ _ env errno0 r h => core env errno0 r h⟩

/-- C4 witness: a call that is interrupted twice and then fails with EACCES-style code 13
reports 13, not EINTR. -/
theorem utime_never_surfaces_eintr_witness :
    ¬(({ ret := -1, errno := 13, usedFallback := false } : UTimeResult).ret = -1 ∧
      ({ ret := -1, errno := 13, usedFallback := false } : UTimeResult).errno = EINTR) := by
  refine utime_never_surfaces_eintr.2.1 "f" { AcTime := 0, ModTime := 0 }
    { firstCalls := [SyscallOutcome.err EINTR, SyscallOutcome.err EINTR,
        SyscallOutcome.err 13],
      portabilitySet := true, locatedFilename := none,
      findFileErrno := id, retryCalls := [] } 7
    { ret := -1, errno := 13, usedFallback := false } ?_
  decide

/-- C5: a definitive failure with any error other than ENOENT, or with the portability
toggle unset, propagates the OS error code unchanged and attempts no fallback lookup. -/
theorem utime_non_enoent_error_propagates :
    (∀ (path : String) (times : UTimBuf) (env : UTimeEnv) (errno0 e : Nat),
       retryLoop env.firstCalls = some (SyscallOutcome.err e) →
       (e ≠ ENOENT ∨ env.portabilitySet = false) →
       SystemNative_UTime path times env errno0 =
         some { ret := -1, errno := e, usedFallback := false }) ∧
    (∀ (path : String) (times : TimeValPair) (env : UTimeEnv) (errno0 e : Nat),
       retryLoop env.firstCalls = some (SyscallOutcome.err e) →
       (e ≠ ENOENT ∨ env.portabilitySet = false) →
       SystemNative_UTimes path times env errno0 =
         some { ret := -1, errno := e, usedFallback := false }) :=
  ⟨fun _ _ env errno0 e h hno => setFileTimesCore_first_err_no_fallback env errno0 e h hno,
   fun _ _ env errno0 e h hno => setFileTimesCore_first_err_no_fallback env errno0 e h hno⟩

/-- C5 witness: a concrete EACCES-style failure (code 13) with the toggle set passes
through unchanged with no fallback. -/
theorem utime_non_enoent_error_propagates_witness :
    SystemNative_UTimes "f"
        { AcTimeSec := 0, AcTimeUSec := 0, ModTimeSec := 0, ModTimeUSec := 0 }
        { firstCalls := [SyscallOutcome.err 13], portabilitySet := true,
          locatedFilename := some "other", findFileErrno := fun _ => 55,
          retryCalls := [SyscallOutcome.ok] } 0 =
      some { ret := -1, errno := 13, usedFallback := false } := by
  refine utime_non_enoent_error_propagates.2 _ _ _ _ _ ?_ (Or.inl ?_)
  · decide
  · decide

/-- C9: when the initial syscall definitively fails with ENOENT, the fallback locates a
match, and the retried syscall definitively fails with code e2, the caller observes -1
with errno e2 — the second attempt's outcome, not the original ENOENT. -/
theorem utime_fallback_retry_result_observed :
    (∀ (path : String) (times : UTimBuf) (env : UTimeEnv) (errno0 : Nat) (f : String)
       (e2 : Nat),
       retryLoop env.firstCalls = some (SyscallOutcome.err ENOENT) →
       env.portabilitySet = true →
       env.locatedFilename = some f →
       retryLoop env.retryCalls = some (SyscallOutcome.err e2) →
       SystemNative_UTime path times env errno0 =
         some { ret := -1, errno := e2, usedFallback := true }) ∧
    (∀ (path : String) (times : TimeValPair) (env : UTimeEnv) (errno0 : Nat) (f : String)
       (e2 : Nat),
       retryLoop env.firstCalls = some (SyscallOutcome.err ENOENT) →
       env.portabilitySet = true →
       env.locatedFilename = some f →
       retryLoop env.retryCalls = some (SyscallOutcome.err e2) →
       SystemNative_UTimes path times env errno0 =
         some { ret := -1, errno := e2, usedFallback := true }) :=
  ⟨fun _ _ env errno0 f e2 h hp hl h2 =>
     setFileTimesCore_fallback_retry env errno0 f (SyscallOutcome.err e2) h hp hl h2,
   fun _ _ env errno0 f e2 h hp hl h2 =>
     setFileTimesCore_fallback_retry env errno0 f (SyscallOutcome.err e2) h hp hl h2⟩

/-- C9 witness: the fallback finds "Other", the retried syscall fails with code 13, the
caller sees 13, not ENOENT. -/
theorem utime_fallback_retry_result_observed_witness :
    SystemNative_UTime "other" { AcTime := 9, ModTime := 9 }
        { firstCalls := [SyscallOutcome.err ENOENT], portabilitySet := true,
          locatedFilename := some "Other", findFileErrno := fun _ => 77,
          retryCalls := [SyscallOutcome.err EINTR, SyscallOutcome.err 13] } 0 =
      some { ret := -1, errno := 13, usedFallback := true } := by
  refine utime_fallback_retry_result_observed.1 "other" { AcTime := 9, ModTime := 9 }
    { firstCalls := [SyscallOutcome.err ENOENT], portabilitySet := true,
      locatedFilename := some "Other", findFileErrno := fun _ => 77,
      retryCalls := [SyscallOutcome.err EINTR, SyscallOutcome.err 13] } 0 "Other" 13
    ?_ rfl rfl ?_
  · decide
  · decide

/-- Multiplying a truncating Nat quotient by K matches the exact rational value exactly
when the divisor divides the dividend. -/
theorem floorDiv_rat_iff (K n d : Nat) (hK : 0 < K) (hn : n ≠ 0) :
    ((K * (d / n) : Nat) : ℚ) = (K : ℚ) * (d : ℚ) / (n : ℚ) ↔ n ∣ d := by
  have hn' : (n : ℚ) ≠ 0 := Nat.cast_ne_zero.mpr hn
  rw [eq_div_iff hn']
  constructor
  · intro heq
    have hNat : K * (d / n) * n = K * d := by exact_mod_cast heq
    rw [mul_assoc] at hNat
    have h2 : d / n * n = d := Nat.eq_of_mul_eq_mul_left hK hNat
    exact ⟨d / n, by rw [mul_comm]; exact h2.symm⟩
  · intro hdvd
    have h2 : d / n * n = d := Nat.div_mul_cancel hdvd
    have hNat : K * (d / n) * n = K * d := by rw [mul_assoc, h2]
    exact_mod_cast hNat

/-- C2 counterexample: on the HAVE_MACH_ABSOLUTE_TIME configuration with timebase
numer = 2, denom = 1 and a successful query, the code returns 1 but writes 0, while the
exact rational value 10^9 * denom / numer is 5 * 10^8 — the written value is not the
exact rational tick rate. -/
theorem resolution_mach_not_exact_rational :
    (SystemNative_GetTimestampResolution ClockConfig.machAbsoluteTime
        { clockGettimeOk := true, machTimebaseOk := true,
          mtid := { numer := 2, denom := 1 } }).ret = 1 ∧
    ¬(((SystemNative_GetTimestampResolution ClockConfig.machAbsoluteTime
        { clockGettimeOk := true, machTimebaseOk := true,
          mtid := { numer := 2, denom := 1 } }).resolution : ℚ)
        = (SecondsToNanoSeconds : ℚ) * (1 : ℚ) / (2 : ℚ)) := by
  constructor
  · rfl
  · have h : (SystemNative_GetTimestampResolution ClockConfig.machAbsoluteTime
        { clockGettimeOk := true, machTimebaseOk := true,
          mtid := { numer := 2, denom := 1 } }).resolution = 0 := rfl
    rw [h]
    norm_num [SecondsToNanoSeconds]

/-- C2 (amended): on the HAVE_MACH_ABSOLUTE_TIME configuration a successful timebase
query returns 1 and writes `SecondsToNanoSeconds * (denom / numer)` with truncating
integer division; this equals the exact rational 10^9 * denom / numer precisely when
numer divides denom. -/
theorem resolution_mach_floor_division (env : ResolutionEnv)
    (hok : env.machTimebaseOk = true)
    (hnum : env.mtid.numer ≠ 0)
    (hden : env.mtid.denom < 4294967296) :
    (SystemNative_GetTimestampResolution ClockConfig.machAbsoluteTime env).ret = 1 ∧
    (SystemNative_GetTimestampResolution ClockConfig.machAbsoluteTime env).resolution
        = SecondsToNanoSeconds * (env.mtid.denom / env.mtid.numer) ∧
    ((((SystemNative_GetTimestampResolution ClockConfig.machAbsoluteTime
          env).resolution : ℚ)
        = (SecondsToNanoSeconds : ℚ) * (env.mtid.denom : ℚ) / (env.mtid.numer : ℚ))
      ↔ env.mtid.numer ∣ env.mtid.denom) := by
  have hq : env.mtid.denom / env.mtid.numer ≤ env.mtid.denom := Nat.div_le_self _ _
  have hlt : SecondsToNanoSeconds * (env.mtid.denom / env.mtid.numer) < UINT64_MOD :=
    calc SecondsToNanoSeconds * (env.mtid.denom / env.mtid.numer)
        ≤ SecondsToNanoSeconds * env.mtid.denom := Nat.mul_le_mul_left _ hq
      _ < UINT64_MOD := by unfold SecondsToNanoSeconds UINT64_MOD; omega
  have hres : (SystemNative_GetTimestampResolution ClockConfig.machAbsoluteTime
      env).resolution = SecondsToNanoSeconds * (env.mtid.denom / env.mtid.numer) := by
    simp [SystemNative_GetTimestampResolution, hok, Nat.mod_eq_of_lt hlt]
  refine ⟨by simp [SystemNative_GetTimestampResolution, hok], hres, ?_⟩
  rw [hres]
  exact floorDiv_rat_iff SecondsToNanoSeconds env.mtid.numer env.mtid.denom
    (by decide) hnum

/-- C2 witness: numer = 4, denom = 8 (an exactly dividing timebase): the resolution
written is 10^9 * (8 / 4). -/
theorem resolution_mach_floor_division_witness :
    (SystemNative_GetTimestampResolution ClockConfig.machAbsoluteTime
        { clockGettimeOk := false, machTimebaseOk := true,
          mtid := { numer := 4, denom := 8 } }).resolution
      = SecondsToNanoSeconds * (8 / 4) :=
  (resolution_mach_floor_division
    { clockGettimeOk := false, machTimebaseOk := true,
      mtid := { numer := 4, denom := 8 } }
    rfl (by decide) (by decide)).2.1

/-- C6 counterexample: on the HAVE_MACH_ABSOLUTE_TIME configuration with numer = 3,
denom = 2 and a successful query, the function returns 1 yet writes resolution 0 — the
claimed "nonzero value in every non-failing case" is false. -/
theorem resolution_mach_success_can_write_zero :
    (SystemNative_GetTimestampResolution ClockConfig.machAbsoluteTime
        { clockGettimeOk := true, machTimebaseOk := true,
          mtid := { numer := 3, denom := 2 } }).ret = 1 ∧
    (SystemNative_GetTimestampResolution ClockConfig.machAbsoluteTime
        { clockGettimeOk := true, machTimebaseOk := true,
          mtid := { numer := 3, denom := 2 } }).resolution = 0 :=
  ⟨rfl, rfl⟩

/-- C6 (amended): the resolution query never returns -1; it returns 0 exactly when the
selected primitive's probe fails; and on the clock_gettime and gettimeofday
configurations a successful query writes a nonzero resolution (on the mach configuration
the written value can be zero, per the counterexample). -/
theorem resolution_return_classification (cfg : ClockConfig) (env : ResolutionEnv) :
    (SystemNative_GetTimestampResolution cfg env).ret ≠ -1 ∧
    ((SystemNative_GetTimestampResolution cfg env).ret = 0 ↔
      (cfg = ClockConfig.clockMonotonic ∧ env.clockGettimeOk = false) ∨
      (cfg = ClockConfig.machAbsoluteTime ∧ env.machTimebaseOk = false)) ∧
    ((cfg = ClockConfig.clockMonotonic ∨ cfg = ClockConfig.gettimeofdayClock) →
      (SystemNative_GetTimestampResolution cfg env).ret = 1 →
      (SystemNative_GetTimestampResolution cfg env).resolution ≠ 0) := by
  cases cfg with
  | clockMonotonic =>
    cases hc : env.clockGettimeOk with
    | false => simp [SystemNative_GetTimestampResolution, hc, SecondsToNanoSeconds]
    | true => simp [SystemNative_GetTimestampResolution, hc, SecondsToNanoSeconds]
  | machAbsoluteTime =>
    cases hm : env.machTimebaseOk with
    | false => simp [SystemNative_GetTimestampResolution, hm]
    | true => simp [SystemNative_GetTimestampResolution, hm]
  | gettimeofdayClock =>
    simp [SystemNative_GetTimestampResolution, SecondsToMicroSeconds]

/-- C6 witness: on the clock_gettime configuration with a successful probe, the written
resolution is nonzero. -/
theorem resolution_return_classification_witness :
    (SystemNative_GetTimestampResolution ClockConfig.clockMonotonic
        { clockGettimeOk := true, machTimebaseOk := true,
          mtid := { numer := 1, denom := 1 } }).resolution ≠ 0 :=
  (resolution_return_classification ClockConfig.clockMonotonic
      { clockGettimeOk := true, machTimebaseOk := true,
        mtid := { numer := 1, denom := 1 } }).2.2 (Or.inl rfl) rfl

/-- On a valid reading the uint64 encoding computes the mathematical value
sec * 10^9 + nsec with no wraparound. -/
theorem timespecToTicks_eq (ts : Timespec) (h : validTimespec ts) :
    timespecToTicks ts = (ts.tv_sec * (SecondsToNanoSeconds : Int) + ts.tv_nsec).toNat := by
  obtain ⟨h0, h1, h2, h3⟩ := h
  simp only [SecondsToNanoSeconds, UINT64_MOD] at h2 h3
  unfold timespecToTicks toUInt64Nat SecondsToNanoSeconds UINT64_MOD
  omega

/-- Encoding a valid seconds/nanoseconds reading is monotone in the reading order. -/
theorem timespecToTicks_mono (a b : Timespec) (ha : validTimespec a)
    (hb : validTimespec b) (hle : timespecLe a b) :
    timespecToTicks a ≤ timespecToTicks b := by
  rw [timespecToTicks_eq a ha, timespecToTicks_eq b hb]
  obtain ⟨ha0, ha1, ha2, ha3⟩ := ha
  obtain ⟨hb0, hb1, hb2, hb3⟩ := hb
  unfold timespecLe at hle
  unfold SecondsToNanoSeconds UINT64_MOD at *
  omega

/-- On a valid reading the uint64 encoding computes the mathematical value
sec * 10^6 + usec with no wraparound. -/
theorem timevalToTicks_eq (tv : Timeval) (h : validTimeval tv) :
    timevalToTicks tv = (tv.tv_sec * (SecondsToMicroSeconds : Int) + tv.tv_usec).toNat := by
  obtain ⟨h0, h1, h2, h3⟩ := h
  simp only [SecondsToMicroSeconds, UINT64_MOD] at h2 h3
  unfold timevalToTicks toUInt64Nat SecondsToMicroSeconds UINT64_MOD
  omega

/-- Encoding a valid seconds/microseconds reading is monotone in the reading order. -/
theorem timevalToTicks_mono (a b : Timeval) (ha : validTimeval a)
    (hb : validTimeval b) (hle : timevalLe a b) :
    timevalToTicks a ≤ timevalToTicks b := by
  rw [timevalToTicks_eq a ha, timevalToTicks_eq b hb]
  obtain ⟨ha0, ha1, ha2, ha3⟩ := ha
  obtain ⟨hb0, hb1, hb2, hb3⟩ := hb
  unfold timevalLe at hle
  unfold SecondsToMicroSeconds UINT64_MOD at *
  omega

/-- C7: on each clock configuration, if the primitive's successive readings are
non-decreasing (valid, normalized readings), then two successive successful
GetTimestamp calls write non-decreasing timestamps. -/
theorem getTimestamp_monotone :
    (∀ e1 e2 : TimestampEnv, validTimespec e1.ts → validTimespec e2.ts →
       timespecLe e1.ts e2.ts →
       (SystemNative_GetTimestamp ClockConfig.clockMonotonic e1).timestamp ≤
         (SystemNative_GetTimestamp ClockConfig.clockMonotonic e2).timestamp) ∧
    (∀ e1 e2 : TimestampEnv, e1.machTicks < UINT64_MOD → e2.machTicks < UINT64_MOD →
       e1.machTicks ≤ e2.machTicks →
       (SystemNative_GetTimestamp ClockConfig.machAbsoluteTime e1).timestamp ≤
         (SystemNative_GetTimestamp ClockConfig.machAbsoluteTime e2).timestamp) ∧
    (∀ e1 e2 : TimestampEnv, e1.gettimeofdayOk = true → e2.gettimeofdayOk = true →
       validTimeval e1.tv → validTimeval e2.tv → timevalLe e1.tv e2.tv →
       (SystemNative_GetTimestamp ClockConfig.gettimeofdayClock e1).timestamp ≤
         (SystemNative_GetTimestamp ClockConfig.gettimeofdayClock e2).timestamp) := by
  refine ⟨fun e1 e2 h1 h2 hle => ?_, fun e1 e2 h1 h2 hle => ?_,
          fun e1 e2 g1 g2 h1 h2 hle => ?_⟩
  · simpa [SystemNative_GetTimestamp] using timespecToTicks_mono e1.ts e2.ts h1 h2 hle
  · simp only [SystemNative_GetTimestamp]
    rw [Nat.mod_eq_of_lt h1, Nat.mod_eq_of_lt h2]
    exact hle
  · simpa [SystemNative_GetTimestamp, g1, g2] using
      timevalToTicks_mono e1.tv e2.tv h1 h2 hle

/-- C7 witness: two concrete successive monotonic-clock readings crossing a second
boundary yield non-decreasing timestamps. -/
theorem getTimestamp_monotone_witness :
    (SystemNative_GetTimestamp ClockConfig.clockMonotonic
        { ts := { tv_sec := 5, tv_nsec := 999999999 }, machTicks := 0,
          gettimeofdayOk := true, tv := { tv_sec := 0, tv_usec := 0 } }).timestamp ≤
      (SystemNative_GetTimestamp ClockConfig.clockMonotonic
        { ts := { tv_sec := 6, tv_nsec := 0 }, machTicks := 0,
          gettimeofdayOk := true, tv := { tv_sec := 0, tv_usec := 0 } }).timestamp :=
  getTimestamp_monotone.1 _ _ (by decide) (by decide) (by decide)

/-- C8: with the host timebase fixed, any two successful resolution queries write equal
values — the query is deterministic. -/
theorem resolution_deterministic (cfg : ClockConfig) (env1 env2 : ResolutionEnv)
    (hm : env1.mtid = env2.mtid)
    (h1 : (SystemNative_GetTimestampResolution cfg env1).ret = 1)
    (h2 : (SystemNative_GetTimestampResolution cfg env2).ret = 1) :
    (SystemNative_GetTimestampResolution cfg env1).resolution =
      (SystemNative_GetTimestampResolution cfg env2).resolution := by
  cases cfg with
  | clockMonotonic =>
    cases hc1 : env1.clockGettimeOk <;> cases hc2 : env2.clockGettimeOk <;>
      simp [SystemNative_GetTimestampResolution, hc1, hc2] at h1 h2 ⊢
  | machAbsoluteTime =>
    cases hc1 : env1.machTimebaseOk <;> cases hc2 : env2.machTimebaseOk <;>
      simp [SystemNative_GetTimestampResolution, hc1, hc2, hm] at h1 h2 ⊢
  | gettimeofdayClock =>
    simp [SystemNative_GetTimestampResolution]

/-- C8 witness: two successful mach-configuration queries over the same timebase write
equal resolutions even when the irrelevant clock_gettime capability differs. -/
theorem resolution_deterministic_witness :
    (SystemNative_GetTimestampResolution ClockConfig.machAbsoluteTime
        { clockGettimeOk := false, machTimebaseOk := true,
          mtid := { numer := 1, denom := 1 } }).resolution =
      (SystemNative_GetTimestampResolution ClockConfig.machAbsoluteTime
        { clockGettimeOk := true, machTimebaseOk := true,
          mtid := { numer := 1, denom := 1 } }).resolution :=
  resolution_deterministic ClockConfig.machAbsoluteTime _ _ rfl rfl rfl

/-- C10: GetTimebaseInfo always returns 1 and always writes both out-parameters; when
the timebase query is unavailable or fails it writes numer = denom = 1; and as long as a
successful host query reports a nonzero denominator, the written denominator is never
zero. -/
theorem getTimebaseInfo_total (cfg : TimebaseConfig) (env : TimebaseEnv) :
    (SystemNative_GetTimebaseInfo cfg env).ret = 1 ∧
    ((cfg = TimebaseConfig.unavailable ∨ env.ok = false) →
      (SystemNative_GetTimebaseInfo cfg env).numer = 1 ∧
      (SystemNative_GetTimebaseInfo cfg env).denom = 1) ∧
    (env.timebase.denom ≠ 0 → (SystemNative_GetTimebaseInfo cfg env).denom ≠ 0) := by
  cases cfg <;> cases he : env.ok <;> simp [SystemNative_GetTimebaseInfo, he]

/-- C10 witness: with the timebase query unavailable the function writes numer = 1 and a
nonzero denominator. -/
theorem getTimebaseInfo_total_witness :
    (SystemNative_GetTimebaseInfo TimebaseConfig.unavailable
        { ok := true, timebase := { numer := 5, denom := 7 } }).numer = 1 ∧
    (SystemNative_GetTimebaseInfo TimebaseConfig.unavailable
        { ok := true, timebase := { numer := 5, denom := 7 } }).denom ≠ 0 :=
  ⟨((getTimebaseInfo_total TimebaseConfig.unavailable
      { ok := true, timebase := { numer := 5, denom := 7 } }).2.1 (Or.inl rfl)).1,
   (getTimebaseInfo_total TimebaseConfig.unavailable
      { ok := true, timebase := { numer := 5, denom := 7 } }).2.2 (by decide)⟩

end PalTime
